import Mathlib

/-!
Shallow embedding of the retrieval-augmented-generation core of this
repository: `backend/rag_engine.py` (chunker, index store, retriever, query
orchestrator) and the stats endpoint of `backend/main.py`, together with
theorems settling the specification claims about chunking, ranking, query
orchestration, persistence and index invariants.

Machine reals (numpy float similarity scores) are modelled as rationals;
`TfidfVectorizer` output rows are l2-normalized (its default `norm='l2'`), so
`cosine_similarity` on them is the plain dot product, which is how similarity
is computed here.
-/

namespace Voice

/-! ### Chunker: `RAGEngine.chunk_text`, rag_engine.py lines 51-61 -/

/-- Python `text.split()`: split on whitespace, dropping empty pieces. -/
def pySplit (s : String) : List String :=
  (s.split fun c => c.isWhitespace).filter (fun w => w ≠ "")

/-- The windows built by `for i in range(0, len(words), step)` with `step > 0`:
window at `i` is `words[i : i + chunk_size]`.  The source joins each window
with single spaces and keeps it only `if chunk.strip()`; the window elements
come from `text.split()`, hence are non-empty and whitespace-free, so the
joined chunk strips to non-empty exactly when the window is non-empty.  We
keep windows as token lists and the guard is `w ≠ []`.  Python
`range(0, stop, step)` has `⌈stop/step⌉` elements. -/
def chunk_windows (words : List String) (chunk_size step : Nat) : List (List String) :=
  ((List.range' 0 ((words.length + step - 1) / step) step).map
    (fun i => (words.drop i).take chunk_size)).filter (fun w => w ≠ [])

/-- `RAGEngine.chunk_text` acting on the whitespace-split token list of the
text.  `range(0, len(words), chunk_size - overlap)` raises `ValueError` when
the step is zero, and is empty when the step is negative (Python `range` with
negative step and stop `≥ 0` yields nothing), so those calls return an error
and an empty chunk list respectively. -/
def chunk_text (words : List String) (chunk_size overlap : Nat) :
    Except String (List (List String)) :=
  let step : Int := (chunk_size : Int) - (overlap : Int)
  if step = 0 then Except.error "range() arg 3 must not be zero"
  else if step < 0 then Except.ok []
  else Except.ok (chunk_windows words chunk_size step.toNat)

/-! ### Retriever: `RAGEngine.retrieve_context`, rag_engine.py lines 135-182 -/

/-- Dot product of two score vectors.  `cosine_similarity` on l2-normalized
rows (the default output of `TfidfVectorizer.fit_transform` and `transform`)
is exactly the dot product. -/
def dot (u v : List ℚ) : ℚ :=
  (List.zipWith (fun a b => a * b) u v).sum

/-- The comparison under `np.argsort(similarities)`: ascending by score, equal
scores kept in index order.  For the small argument arrays involved, numpy's
introsort falls back to an insertion sort, which is stable, so the argsort is
the unique permutation sorted by this total order. -/
def argLe (xs : List ℚ) (i j : Nat) : Prop :=
  xs.getD i 0 < xs.getD j 0 ∨ (xs.getD i 0 = xs.getD j 0 ∧ i ≤ j)

instance argLe.decidableRel (xs : List ℚ) : DecidableRel (argLe xs) := fun _ _ =>
  inferInstanceAs (Decidable (_ ∨ _))

instance argLe.isTotal (xs : List ℚ) : IsTotal Nat (argLe xs) where
  total i j := by
    unfold argLe
    rcases lt_trichotomy (xs.getD i 0) (xs.getD j 0) with h | h | h
    · exact Or.inl (Or.inl h)
    · rcases Nat.le_total i j with hij | hij
      · exact Or.inl (Or.inr ⟨h, hij⟩)
      · exact Or.inr (Or.inr ⟨h.symm, hij⟩)
    · exact Or.inr (Or.inl h)

instance argLe.isTrans (xs : List ℚ) : IsTrans Nat (argLe xs) where
  trans i j k hij hjk := by
    unfold argLe at *
    rcases hij with h1 | ⟨h1, h1'⟩ <;> rcases hjk with h2 | ⟨h2, h2'⟩
    · exact Or.inl (h1.trans h2)
    · exact Or.inl (h2 ▸ h1)
    · exact Or.inl (h1 ▸ h2)
    · exact Or.inr ⟨h1.trans h2, h1'.trans h2'⟩

/-- `np.argsort(similarities)`: the indices `0 .. n-1` sorted ascending by
score (ties in index order, see `argLe`). -/
def argsort (xs : List ℚ) : List Nat :=
  List.insertionSort (argLe xs) (List.range xs.length)

/-- Python slice `a[-k:]`: the last `k` elements — except that for `k = 0` it
is `a[0:]`, the whole list. -/
def pyLastSlice (l : List Nat) (k : Nat) : List Nat :=
  if k = 0 then l else l.drop (l.length - k)

/-- Lines 165-174 of rag_engine.py:
`top_indices = np.argsort(similarities)[-top_k:][::-1]`, then keep the indices
whose score is strictly positive, in that order. -/
def retrieve_select (sims : List ℚ) (top_k : Nat) : List Nat :=
  ((pyLastSlice (argsort sims) top_k).reverse).filter (fun i => 0 < sims.getD i 0)

/-- One entry of `RAGEngine.metadata`: `{"text": ..., "source": ..., "chunk_id": ...}`. -/
structure Meta where
  text : String
  source : String
  chunk_id : Nat
deriving DecidableEq

/-- The in-memory state of `RAGEngine`: `self.vectors` (`None` or the matrix
rows), `self.vectorizer` (modelled by its `transform` on a single query,
giving the query's weight vector), and `self.metadata`. -/
structure EngineState where
  vectors : Option (List (List ℚ))
  vectorizer : String → List ℚ
  metadata : List Meta

/-- `RAGEngine.retrieve_context`.  Empty when the index is empty, when the
query vector has no nonzero entry (`query_vector.nnz == 0`), and otherwise the
texts of the selected chunks.  `metadata[idx]` is modelled with `getD`; under
the index invariant (`len(metadata)` = number of rows) the index is always in
range. -/
def retrieve_context (s : EngineState) (query : String) (top_k : Nat) : List String :=
  match s.vectors with
  | none => []
  | some vs =>
    if s.metadata.length = 0 then []
    else
      let qv := s.vectorizer query
      if qv.countP (fun a => a != 0) = 0 then []
      else
        let sims := vs.map (fun v => dot qv v)
        (retrieve_select sims top_k).map (fun i => (s.metadata.getD i ⟨"", "", 0⟩).text)

/-- A concrete engine with two chunks that score identically against any
query: both rows equal `[1]` and the query vector is `[1]`. -/
def tieEngine : EngineState where
  vectors := some [[1], [1]]
  vectorizer := fun _ => [1]
  metadata := [⟨"alpha", "doc.pdf", 0⟩, ⟨"beta", "doc.pdf", 1⟩]

/-! ### Answer generation: `RAGEngine.generate_response`, rag_engine.py
lines 184-259 -/

/-- The parsed body of the Gemini HTTP response, as `generate_response` reads
it.  A candidate is `Option String`: `some t` when
`candidate['content']['parts'][0]['text']` is present, `none` when one of the
nested fields is missing (the resulting `KeyError` is caught by the
surrounding `try` and turned into the fallback).  `noCandidatesKey` is a JSON
object without a `'candidates'` key; `notJson` is a body on which
`response.json()` itself raises. -/
inductive GeminiBody
  | withCandidates (cands : List (Option String))
  | noCandidatesKey
  | notJson
deriving DecidableEq

/-- The outcome of `requests.post` to the Gemini endpoint: either an HTTP
response with a status code and body, or a raised exception (network error,
timeout). -/
inductive ApiOutcome
  | response (status : Nat) (body : GeminiBody)
  | exn (msg : String)
deriving DecidableEq

/-- The fixed user-safe fallback string returned on every generation failure
path (lines 250, 255 and 259 of rag_engine.py all return this same text). -/
def geminiFallback : String :=
  "I don\x27t have this information in the knowledge base provided."

/-- The grounding prompt built by `generate_response` (instruction text
around the joined context and the question). -/
def build_prompt (query : String) (context : List String) : String :=
  "You are an AI assistant that answers user questions only using the " ++
  "information found in the provided knowledge base (RAG context).\n\nContext:\n" ++
  String.intercalate "\n\n" context ++ "\n\nQuestion: " ++ query ++ "\n\nAnswer:"

/-- `RAGEngine.generate_response` with the HTTP interaction abstracted into
its outcome.  On status 200 with a first candidate whose nested text fields
exist, that text is returned; every other path (exception, non-200 status,
unparseable body, missing `'candidates'` key, empty candidate list, missing
nested fields) returns the fixed fallback string. -/
def generate_response (query : String) (context : List String)
    (api : ApiOutcome) : String :=
  let _prompt := build_prompt query context
  match api with
  | ApiOutcome.exn _ => geminiFallback
  | ApiOutcome.response status body =>
    if status = 200 then
      match body with
      | GeminiBody.withCandidates (some t :: _) => t
      | GeminiBody.withCandidates (none :: _) => geminiFallback
      | GeminiBody.withCandidates [] => geminiFallback
      | GeminiBody.noCandidatesKey => geminiFallback
      | GeminiBody.notJson => geminiFallback
    else geminiFallback

/-- `ApiFailed api` holds exactly on the failure outcomes listed by the spec:
a raised exception (network error or timeout), a non-success HTTP status, or
a 200 response whose body lacks the expected fields. -/
def ApiFailed (api : ApiOutcome) : Prop :=
  ∀ t rest, api ≠ ApiOutcome.response 200 (GeminiBody.withCandidates (some t :: rest))

/-! ### Query orchestrator: `RAGEngine.query`, rag_engine.py lines 261-280 -/

/-- A Python value appearing in the dict returned by `query`. -/
inductive PyVal
  | str (s : String)
  | strList (l : List String)
  | natVal (n : Nat)
deriving DecidableEq

/-- The fixed answer returned when no context is retrieved (line 268). -/
def noInfoMsg : String :=
  "I couldn\x27t find relevant information in the knowledge base. " ++
  "Please make sure PDFs are ingested."

/-- `RAGEngine.query` instrumented with whether the Answer Generator was
invoked: the returned Boolean is `true` exactly when `generate_response` (and
hence the Gemini HTTP call) runs.  The returned dict is modelled as an ordered
key/value list.  Note the two branches return different key sets: the
empty-context dict has a `"sources"` key, the non-empty one has
`"num_sources"` (the length of the context), and no branch computes the set
of source documents. -/
def queryT (s : EngineState) (api : ApiOutcome) (question : String) :
    List (String × PyVal) × Bool :=
  let context := retrieve_context s question 3
  if context = [] then
    ([("answer", PyVal.str noInfoMsg), ("context", PyVal.strList []),
      ("sources", PyVal.strList [])], false)
  else
    ([("answer", PyVal.str (generate_response question context api)),
      ("context", PyVal.strList context),
      ("num_sources", PyVal.natVal context.length)], true)

/-- `RAGEngine.query`: the returned dict of `queryT`. -/
def query (s : EngineState) (api : ApiOutcome) (question : String) :
    List (String × PyVal) :=
  (queryT s api question).1

/-- A concrete engine holding a single indexed chunk that any query matches
(row `[1]`, query vector `[1]`). -/
def oneChunkEngine : EngineState where
  vectors := some [[1]]
  vectorizer := fun _ => [1]
  metadata := [⟨"cat facts", "cats.pdf", 0⟩]

/-! ### Persistence: `RAGEngine.save_index` (lines 63-71), `clear_index`
(lines 73-80) and `__init__` (lines 14-37) -/

/-- The two pickle files under the index path.  `index_file` holds
`{'vectors': ..., 'vectorizer': ...}`, `metadata_file` holds the metadata
list; `none` means the file does not exist.  Pickle round-tripping is
modelled as faithful storage. -/
structure Disk where
  index_file : Option (Option (List (List ℚ)) × (String → List ℚ))
  metadata_file : Option (List Meta)

/-- `RAGEngine.save_index`: write both files. -/
def save_index (s : EngineState) : Disk where
  index_file := some (s.vectors, s.vectorizer)
  metadata_file := some s.metadata

/-- The `__init__` load path: if the index file exists, restore vectors and
the fitted vectorizer from it and the metadata from the metadata file (whose
`open` raises when it is missing — the `none` result); otherwise start with
`vectors = None`, empty metadata, and the freshly constructed (unfitted)
vectorizer. -/
def init_engine (fresh : String → List ℚ) (d : Disk) : Option EngineState :=
  match d.index_file with
  | some (v, vz) =>
    match d.metadata_file with
    | some md => some ⟨v, vz, md⟩
    | none => none
  | none => some ⟨none, fresh, []⟩

/-! ### Ingestion: `RAGEngine.ingest_pdfs`, rag_engine.py lines 82-133 -/

/-- The full engine: in-memory state plus the two files on disk. -/
structure FullState where
  engine : EngineState
  disk : Disk

/-- `RAGEngine.clear_index`: empty the in-memory metadata and vectors and
remove both persisted files. -/
def clear_index (st : FullState) : FullState where
  engine := ⟨none, st.engine.vectorizer, []⟩
  disk := ⟨none, none⟩

/-- A file of the ingestion directory: its filename and the text that
`extract_text_from_pdf` produces for it (that helper returns `""` for an
unreadable file, so extraction failure is the `text = ""` case). -/
structure PdfFile where
  name : String
  text : String
deriving DecidableEq

/-- One iteration of the per-document loop of `ingest_pdfs` (lines 99-121):
skip a document with empty extracted text (`if not text: continue`),
otherwise chunk it with the default `chunk_size = 500`, `overlap = 50`
(step 450), join each window with single spaces, and append each chunk both
to `all_chunks` and — with its source filename and per-document `chunk_id`
from `enumerate` — to the metadata list. -/
def ingest_step (acc : List String × List Meta) (f : PdfFile) :
    List String × List Meta :=
  if f.text = "" then acc
  else
    let texts := (chunk_windows (pySplit f.text) 500 450).map
      (fun w => String.intercalate " " w)
    (acc.1 ++ texts,
     acc.2 ++ texts.enum.map (fun p => ⟨p.2, f.name, p.1⟩))

/-- The whole per-document loop: starting from the just-cleared (empty)
`all_chunks` and metadata, fold `ingest_step` over the `.pdf` files.
Returns `(all_chunks, metadata)`. -/
def ingest_collect (files : List PdfFile) : List String × List Meta :=
  files.foldl ingest_step ([], [])

/-- Python `f.endswith('.pdf')`: a suffix check on the character sequence. -/
def pyEndswith (s sfx : String) : Bool :=
  List.isSuffixOf sfx.data s.data

/-- The result dict `{status, message, count}` of `ingest_pdfs`. -/
structure IngestResult where
  status : String
  message : String
  count : Nat
deriving DecidableEq

/-- `RAGEngine.ingest_pdfs`.  The directory is `none` when it does not exist
(the code creates it and reports an error without touching the index).  For
an existing directory the index is hard-reset first (line 89), then the
`.pdf` files are processed; with no `.pdf` files a warning is returned — with
the index already destroyed.  `fitF` models
`TfidfVectorizer.fit_transform`: from the chunk texts it produces the row
matrix and the newly fitted vectorizer (`transform`).  When at least one
chunk exists the new index is persisted (line 127). -/
def ingest_pdfs (fitF : List String → List (List ℚ) × (String → List ℚ))
    (st : FullState) (dir : Option (List PdfFile)) : FullState × IngestResult :=
  match dir with
  | none => (st, ⟨"error", "PDF directory created but empty", 0⟩)
  | some files =>
    let st1 := clear_index st
    let pdf_files := files.filter (fun f => pyEndswith f.name ".pdf")
    if pdf_files = [] then (st1, ⟨"warning", "No PDF files found", 0⟩)
    else
      let collected := ingest_collect pdf_files
      if collected.1 = [] then
        (⟨⟨none, st1.engine.vectorizer, collected.2⟩, st1.disk⟩,
         ⟨"success", "Ingested " ++ toString pdf_files.length ++ " PDF(s)",
          collected.2.length⟩)
      else
        let fitted := fitF collected.1
        let engine2 : EngineState := ⟨some fitted.1, fitted.2, collected.2⟩
        (⟨engine2, save_index engine2⟩,
         ⟨"success", "Ingested " ++ toString pdf_files.length ++ " PDF(s)",
          collected.2.length⟩)

/-- One externally triggered index operation: `POST /ingest` (or the startup
auto-ingest) and `GET /clear_index` from main.py. -/
inductive Op
  | ingest (dir : Option (List PdfFile))
  | clear

/-- Apply one operation to the full state. -/
def step (fitF : List String → List (List ℚ) × (String → List ℚ))
    (st : FullState) : Op → FullState
  | Op.ingest dir => (ingest_pdfs fitF st dir).1
  | Op.clear => clear_index st

/-- Apply a sequence of operations. -/
def run (fitF : List String → List (List ℚ) × (String → List ℚ))
    (ops : List Op) (st : FullState) : FullState :=
  ops.foldl (step fitF) st

/-- A fresh engine as `__init__` builds it when no index file exists. -/
def initState (fresh : String → List ℚ) : FullState where
  engine := ⟨none, fresh, []⟩
  disk := ⟨none, none⟩

/-- The invariant of claim C8: the metadata list has exactly one entry per
row of the vector matrix, and an empty metadata list goes with an absent
(`None`) matrix. -/
def Inv (st : FullState) : Prop :=
  match st.engine.vectors with
  | some m => m.length = st.engine.metadata.length
  | none => st.engine.metadata = []

/-! ### Stats endpoint: `get_stats`, main.py lines 142-152 -/

/-- The attributes that `RAGEngine.__init__` sets on the engine object
(rag_engine.py lines 14-37).  `collection` — a leftover from an earlier
ChromaDB-based engine — is not among them. -/
def rag_engine_attrs : List String :=
  ["index_path", "vectorizer", "index_file", "metadata_file", "vectors",
   "metadata", "gemini_api_key", "gemini_url"]

/-- Python `getattr(rag_engine, "collection")`: `none` (AttributeError) since
`RAGEngine` never defines that attribute. -/
def getattr_collection (_s : EngineState) : Option Unit :=
  if "collection" ∈ rag_engine_attrs then some () else none

/-- The `/stats` handler `get_stats` of main.py: it evaluates
`rag_engine.collection.count()`; the attribute access raises
`AttributeError`, the `except` clause catches it and raises
`HTTPException(status_code=500, ...)`, modelled as `Except.error 500`.  The
`ok` branch (which would report the collection count) is unreachable. -/
def get_stats (s : EngineState) : Except Nat (List (String × PyVal)) :=
  match getattr_collection s with
  | some _ => Except.ok [("total_chunks", PyVal.natVal s.metadata.length)]
  | none => Except.error 500

end Voice

namespace Voice

/-! ### Theorems about the chunker -/

set_option maxRecDepth 40000 in
/-- Claim C2 counterexample: a text of 451 whitespace-separated tokens has
fewer than `chunk_size = 500` tokens, yet `chunk_text` produces two chunks
(windows at `i = 0` and `i = 450`), not one. -/
theorem chunk_text_two_chunk_counterexample :
    (List.replicate 451 "a").length < 500 ∧
    (chunk_text (List.replicate 451 "a") 500 50).toOption.map List.length = some 2 := by
  decide

/-- Claim C2 (amended): for a text with at least one token and at most
`chunk_size - overlap = 450` tokens, `chunk_text` with the default
`chunk_size = 500`, `overlap = 50` produces exactly one chunk, and that chunk
is the full token list of the text. -/
theorem chunk_text_single_chunk (words : List String) (h1 : words ≠ [])
    (h2 : words.length ≤ 450) :
    chunk_text words 500 50 = Except.ok [words] := by
  have hn : 0 < words.length := List.length_pos.mpr h1
  have hdiv : (words.length + 450 - 1) / 450 = 1 := by
    have h449 : words.length + 450 - 1 = words.length + 449 := by omega
    rw [h449]
    omega
  unfold chunk_text
  norm_num
  unfold chunk_windows
  have ht : (450 : Int).toNat = 450 := rfl
  rw [ht, hdiv]
  have hrange : List.range' 0 1 450 = [0] := rfl
  rw [hrange]
  simp [List.take_of_length_le (show words.length ≤ 500 by omega), h1]

/-- Claim C2 witness: the amended statement at a concrete one-token text. -/
theorem chunk_text_single_chunk_witness :
    (["hello"] : List String) ≠ [] ∧ (["hello"] : List String).length ≤ 450 ∧
    chunk_text ["hello"] 500 50 = Except.ok [["hello"]] :=
  ⟨by decide, by decide, chunk_text_single_chunk ["hello"] (by decide) (by decide)⟩

/-- Claim C3 counterexample: with `overlap = 501 > chunk_size = 500` the step
is negative, Python `range(0, n, step)` is empty, and `chunk_text` silently
returns an empty chunk list — no rejection is signalled. -/
theorem chunk_text_silent_empty_counterexample :
    (chunk_text ["a"] 500 501).toOption = some [] := by
  decide

/-- Claim C3 (amended): when `overlap = chunk_size` the zero step makes
`range` raise `ValueError` (a signalled rejection, though coming from `range`
rather than an explicit guard); when `overlap > chunk_size` the negative step
makes `range` empty and `chunk_text` silently returns an empty chunk list. -/
theorem chunk_text_nonpositive_step (words : List String) (cs ov : Nat)
    (h : cs ≤ ov) :
    chunk_text words cs ov =
      if cs = ov then Except.error "range() arg 3 must not be zero"
      else Except.ok [] := by
  unfold chunk_text
  by_cases he : cs = ov
  · subst he
    simp
  · have hlt : (cs : Int) - (ov : Int) < 0 := by
      have : cs < ov := lt_of_le_of_ne h he
      omega
    rw [if_neg (by omega), if_pos hlt, if_neg he]

/-- Claim C3 witness: the amended statement at `chunk_size = 500`,
`overlap = 501`. -/
theorem chunk_text_nonpositive_step_witness :
    (500 : Nat) ≤ 501 ∧ chunk_text ["a"] 500 501 = Except.ok [] := by
  refine ⟨by decide, ?_⟩
  have h := chunk_text_nonpositive_step ["a"] 500 501 (by decide)
  simpa using h

/-! ### Theorems about the retriever -/

/-- The Python slice `[-top_k:]` keeps a suffix (or everything). -/
theorem pyLastSlice_sublist (l : List Nat) (k : Nat) : (pyLastSlice l k).Sublist l := by
  unfold pyLastSlice
  split
  · exact List.Sublist.refl l
  · exact List.drop_sublist _ l

/-- `argsort` is ascending for `argLe` (score, then index). -/
theorem argsort_sorted (xs : List ℚ) : (argsort xs).Pairwise (argLe xs) :=
  List.sorted_insertionSort (argLe xs) (List.range xs.length)

/-- `argsort` lists each index exactly once. -/
theorem argsort_nodup (xs : List ℚ) : (argsort xs).Nodup :=
  ((List.perm_insertionSort (argLe xs) (List.range xs.length)).nodup_iff).mpr
    (List.nodup_range _)

/-- Every selected index has a strictly positive similarity score. -/
theorem retrieve_select_pos (sims : List ℚ) (k : Nat) :
    ∀ i ∈ retrieve_select sims k, 0 < sims.getD i 0 := by
  intro i hi
  unfold retrieve_select at hi
  have := (List.mem_filter.mp hi).2
  simpa using this

/-- The selected indices are ordered by strictly decreasing argsort rank:
later selected indices have strictly smaller score, or the same score and a
strictly smaller index. -/
theorem retrieve_select_sorted (sims : List ℚ) (k : Nat) :
    (retrieve_select sims k).Pairwise
      (fun i j => sims.getD j 0 < sims.getD i 0 ∨
        (sims.getD i 0 = sims.getD j 0 ∧ j < i)) := by
  have hpair : (pyLastSlice (argsort sims) k).Pairwise (argLe sims) :=
    List.Pairwise.sublist (pyLastSlice_sublist (argsort sims) k) (argsort_sorted sims)
  have hrev : ((pyLastSlice (argsort sims) k).reverse).Pairwise
      (fun i j => argLe sims j i) :=
    List.pairwise_reverse.mpr hpair
  have hsub2 : (retrieve_select sims k).Pairwise (fun i j => argLe sims j i) :=
    List.Pairwise.sublist (List.filter_sublist _) hrev
  have hnodup : (retrieve_select sims k).Nodup := by
    have h1 : (pyLastSlice (argsort sims) k).Nodup :=
      List.Sublist.nodup (pyLastSlice_sublist (argsort sims) k) (argsort_nodup sims)
    have h2 := List.nodup_reverse.mpr h1
    exact List.Sublist.nodup (List.filter_sublist _) h2
  have hcomb := hsub2.and hnodup
  refine hcomb.imp ?_
  rintro i j ⟨hle, hne⟩
  rcases hle with hlt | ⟨heq, hij⟩
  · exact Or.inl hlt
  · exact Or.inr ⟨heq.symm, lt_of_le_of_ne hij (fun h => hne h.symm)⟩

/-- For `top_k ≥ 1` at most `top_k` chunks are selected (for `top_k = 0` the
Python slice `[-0:]` keeps the whole array). -/
theorem retrieve_select_length (sims : List ℚ) (k : Nat) (hk : 1 ≤ k) :
    (retrieve_select sims k).length ≤ k := by
  unfold retrieve_select
  calc (((pyLastSlice (argsort sims) k).reverse).filter
          (fun i => decide (0 < sims.getD i 0))).length
      ≤ ((pyLastSlice (argsort sims) k).reverse).length := List.length_filter_le _ _
    _ = (pyLastSlice (argsort sims) k).length := List.length_reverse _
    _ ≤ k := by
        unfold pyLastSlice
        rw [if_neg (by omega)]
        rw [List.length_drop]
        omega

/-- Claim C4 counterexample: two chunks with the same positive score against
the query.  The code returns the chunk with the larger `chunk_id` first
(`["beta", "alpha"]`), not the one with the smaller `chunk_id`
(`["alpha", "beta"]`) as the claim's tie-break states — and the scores are
equal, so the order is not strictly decreasing either. -/
theorem retrieve_tie_order_counterexample :
    retrieve_context tieEngine "q" 2 = ["beta", "alpha"] ∧
    retrieve_context tieEngine "q" 2 ≠ ["alpha", "beta"] := by
  refine ⟨?_, ?_⟩ <;>
    norm_num [retrieve_context, tieEngine, retrieve_select, argsort, argLe, dot,
      pyLastSlice, List.range, List.range.loop]
  decide

/-- Claim C4 (amended): for a non-empty index and a query with a nonzero
vector, `retrieve_context` returns the texts of the indices chosen by
`retrieve_select` from the cosine scores; every selected index has strictly
positive score; the selection is ordered by non-increasing score with equal
scores broken by the **larger** index (later insertion) first; and for
`top_k ≥ 1` at most `top_k` chunks are returned. -/
theorem retrieve_context_ranking (s : EngineState) (q : String) (k : Nat)
    (vs : List (List ℚ)) (sims : List ℚ)
    (hv : s.vectors = some vs) (hm : s.metadata.length ≠ 0)
    (hq : (s.vectorizer q).countP (fun a => a != 0) ≠ 0)
    (hs : sims = vs.map (fun v => dot (s.vectorizer q) v)) :
    retrieve_context s q k =
      (retrieve_select sims k).map (fun i => (s.metadata.getD i ⟨"", "", 0⟩).text) ∧
    (∀ i ∈ retrieve_select sims k, 0 < sims.getD i 0) ∧
    (retrieve_select sims k).Pairwise
      (fun i j => sims.getD j 0 < sims.getD i 0 ∨
        (sims.getD i 0 = sims.getD j 0 ∧ j < i)) ∧
    (1 ≤ k → (retrieve_select sims k).length ≤ k) := by
  subst hs
  refine ⟨?_, retrieve_select_pos _ k, retrieve_select_sorted _ k,
    retrieve_select_length _ k⟩
  obtain ⟨v0, vz, md⟩ := s
  dsimp only at hv hm hq ⊢
  subst hv
  dsimp only [retrieve_context]
  rw [if_neg hm, if_neg hq]

/-- Claim C4 witness: the amended statement at the concrete two-chunk engine
with tied scores and `top_k = 2`. -/
theorem retrieve_context_ranking_witness :
    tieEngine.vectors = some [[1], [1]] ∧ tieEngine.metadata.length ≠ 0 ∧
    (tieEngine.vectorizer "q").countP (fun a => a != 0) ≠ 0 ∧
    (retrieve_context tieEngine "q" 2 =
      (retrieve_select [1, 1] 2).map
        (fun i => (tieEngine.metadata.getD i ⟨"", "", 0⟩).text) ∧
    (∀ i ∈ retrieve_select [1, 1] 2, 0 < ([1, 1] : List ℚ).getD i 0) ∧
    (retrieve_select ([1, 1] : List ℚ) 2).Pairwise
      (fun i j => ([1, 1] : List ℚ).getD j 0 < ([1, 1] : List ℚ).getD i 0 ∨
        (([1, 1] : List ℚ).getD i 0 = ([1, 1] : List ℚ).getD j 0 ∧ j < i)) ∧
    (1 ≤ 2 → (retrieve_select ([1, 1] : List ℚ) 2).length ≤ 2)) :=
  ⟨rfl, by decide, by simp [tieEngine],
    retrieve_context_ranking tieEngine "q" 2 [[1], [1]] [1, 1] rfl (by decide)
      (by simp [tieEngine]) (by simp [tieEngine, dot])⟩

/-! ### Theorems about the query orchestrator -/

/-- Evaluation of retrieval on the concrete one-chunk engine. -/
theorem oneChunkEngine_retrieve :
    retrieve_context oneChunkEngine "q" 3 = ["cat facts"] := by
  norm_num [retrieve_context, oneChunkEngine, retrieve_select, argsort, argLe,
    dot, pyLastSlice, List.range, List.range.loop]

/-- Claim C1 counterexample: on a question with non-empty retrieved context,
the dict returned by `query` has the keys `answer`, `context` and
`num_sources` — there is no `sources` key (only the empty-context branch has
one), so no set of source document identifiers is returned. -/
theorem query_sources_key_counterexample :
    retrieve_context oneChunkEngine "q" 3 ≠ [] ∧
    (query oneChunkEngine
        (ApiOutcome.response 200 (GeminiBody.withCandidates [some "Cats are mammals."]))
        "q").map Prod.fst = ["answer", "context", "num_sources"] ∧
    "sources" ∉ (query oneChunkEngine
        (ApiOutcome.response 200 (GeminiBody.withCandidates [some "Cats are mammals."]))
        "q").map Prod.fst := by
  refine ⟨by simp [oneChunkEngine_retrieve], ?_, ?_⟩ <;>
    simp [query, queryT, oneChunkEngine_retrieve]

/-- Claim C1 (amended): for every question with non-empty retrieved context,
`query` returns the dict with keys `answer` (the generated response),
`context` (the retrieved chunks) and `num_sources` (the number of chunks in
the returned context). -/
theorem query_nonempty_context_keys (s : EngineState) (api : ApiOutcome)
    (q : String) (h : retrieve_context s q 3 ≠ []) :
    query s api q =
      [("answer", PyVal.str (generate_response q (retrieve_context s q 3) api)),
       ("context", PyVal.strList (retrieve_context s q 3)),
       ("num_sources", PyVal.natVal (retrieve_context s q 3).length)] := by
  simp [query, queryT, h]

/-- Claim C1 witness: the amended statement at the concrete one-chunk engine
and a successful generation. -/
theorem query_nonempty_context_keys_witness :
    retrieve_context oneChunkEngine "q" 3 ≠ [] ∧
    query oneChunkEngine
        (ApiOutcome.response 200 (GeminiBody.withCandidates [some "Cats are mammals."]))
        "q" =
      [("answer", PyVal.str "Cats are mammals."),
       ("context", PyVal.strList ["cat facts"]),
       ("num_sources", PyVal.natVal 1)] := by
  refine ⟨by simp [oneChunkEngine_retrieve], ?_⟩
  have h := query_nonempty_context_keys oneChunkEngine
    (ApiOutcome.response 200 (GeminiBody.withCandidates [some "Cats are mammals."]))
    "q" (by simp [oneChunkEngine_retrieve])
  rw [h, oneChunkEngine_retrieve]
  simp [generate_response]

/-- On every failed generation outcome `generate_response` returns the fixed
fallback string. -/
theorem generate_response_failed (q : String) (ctx : List String)
    (api : ApiOutcome) (hapi : ApiFailed api) :
    generate_response q ctx api = geminiFallback := by
  unfold generate_response
  match api with
  | ApiOutcome.exn m => rfl
  | ApiOutcome.response status body =>
    by_cases h200 : status = 200
    · subst h200
      match body with
      | GeminiBody.withCandidates (some t :: rest) => exact absurd rfl (hapi t rest)
      | GeminiBody.withCandidates (none :: _) => rfl
      | GeminiBody.withCandidates [] => rfl
      | GeminiBody.noCandidatesKey => rfl
      | GeminiBody.notJson => rfl
    · simp [h200]

/-- Claim C5: with non-empty retrieved context, on every Answer Generator
failure (raised exception, non-success HTTP status, or a body without the
expected fields) `query` still returns the fixed non-empty fallback string as
its `answer`.  The model is a total function, so no failure propagates: every
failure case yields this dict. -/
theorem query_generator_failure_fallback (s : EngineState) (api : ApiOutcome)
    (q : String) (hctx : retrieve_context s q 3 ≠ []) (hapi : ApiFailed api) :
    (query s api q).lookup "answer" = some (PyVal.str geminiFallback) ∧
    geminiFallback ≠ "" := by
  refine ⟨?_, by decide⟩
  simp [query, queryT, hctx, generate_response_failed q _ api hapi]

/-- Claim C5 witness: the concrete HTTP-500 scenario of the spec on the
one-chunk engine. -/
theorem query_generator_failure_fallback_witness :
    retrieve_context oneChunkEngine "q" 3 ≠ [] ∧
    ApiFailed (ApiOutcome.response 500 GeminiBody.notJson) ∧
    ((query oneChunkEngine (ApiOutcome.response 500 GeminiBody.notJson) "q").lookup
        "answer" = some (PyVal.str geminiFallback) ∧
      geminiFallback ≠ "") := by
  refine ⟨by simp [oneChunkEngine_retrieve], ?_, ?_⟩
  · intro t rest h
    simp at h
  · exact query_generator_failure_fallback oneChunkEngine
      (ApiOutcome.response 500 GeminiBody.notJson) "q"
      (by simp [oneChunkEngine_retrieve]) (by intro t rest h; simp at h)

/-- Claim C6: whenever retrieval yields no context (in particular on an empty
index), `query` short-circuits: it returns the fixed "no relevant
information" answer with empty `context` (and an empty `sources` list), and
the Answer Generator is not invoked — the flag of `queryT` is `false` and the
result is the same for every `api` outcome. -/
theorem query_empty_context_short_circuit (s : EngineState) (api : ApiOutcome)
    (q : String) (h : retrieve_context s q 3 = []) :
    queryT s api q =
      ([("answer", PyVal.str noInfoMsg), ("context", PyVal.strList []),
        ("sources", PyVal.strList [])], false) := by
  simp [queryT, h]

/-- Claim C6 witness: a freshly constructed engine (empty index) and an
arbitrary generator outcome. -/
theorem query_empty_context_short_circuit_witness :
    retrieve_context (initState (fun _ => [1])).engine "anything" 3 = [] ∧
    queryT (initState (fun _ => [1])).engine (ApiOutcome.exn "net down") "anything" =
      ([("answer", PyVal.str noInfoMsg), ("context", PyVal.strList []),
        ("sources", PyVal.strList [])], false) :=
  ⟨rfl, query_empty_context_short_circuit (initState (fun _ => [1])).engine
    (ApiOutcome.exn "net down") "anything" rfl⟩

/-! ### Theorems about persistence -/

/-- Claim C7: persisting an index with `save_index` and reloading it in a
fresh engine (the `__init__` load path, which restores vectors, fitted
vectorizer and chunk metadata) yields identical search results for every
query and every `top_k`. -/
theorem search_roundtrip_persistence (s s2 : EngineState)
    (fresh : String → List ℚ) (q : String) (k : Nat)
    (h : init_engine fresh (save_index s) = some s2) :
    retrieve_context s2 q k = retrieve_context s q k := by
  have h2 : s2 = ⟨s.vectors, s.vectorizer, s.metadata⟩ := by
    simpa [init_engine, save_index] using h.symm
  subst h2
  cases s
  rfl

/-- Claim C7 witness: round-trip of the concrete one-chunk engine. -/
theorem search_roundtrip_persistence_witness :
    init_engine (fun _ => []) (save_index oneChunkEngine) = some oneChunkEngine ∧
    retrieve_context oneChunkEngine "q" 3 = retrieve_context oneChunkEngine "q" 3 :=
  ⟨rfl, search_roundtrip_persistence oneChunkEngine oneChunkEngine
    (fun _ => []) "q" 3 rfl⟩

/-! ### Theorems about ingestion and the index invariant -/

/-- `ingest_step` keeps `all_chunks` and the metadata list the same length:
each kept document appends one chunk text and one metadata entry per chunk. -/
theorem ingest_step_lengths (acc : List String × List Meta) (f : PdfFile)
    (h : acc.1.length = acc.2.length) :
    (ingest_step acc f).1.length = (ingest_step acc f).2.length := by
  unfold ingest_step
  split
  · exact h
  · simp [h]

/-- Over the whole loop, `all_chunks` and the metadata list have the same
length. -/
theorem ingest_collect_lengths (files : List PdfFile) :
    (ingest_collect files).1.length = (ingest_collect files).2.length := by
  suffices hgen : ∀ acc : List String × List Meta, acc.1.length = acc.2.length →
      (files.foldl ingest_step acc).1.length = (files.foldl ingest_step acc).2.length by
    exact hgen ([], []) rfl
  induction files with
  | nil => intro acc h; exact h
  | cons f fs ih =>
    intro acc h
    exact ih (ingest_step acc f) (ingest_step_lengths acc f h)

/-- `clear_index` establishes the invariant. -/
theorem inv_clear_index (st : FullState) : Inv (clear_index st) := rfl

/-- `ingest_pdfs` preserves the invariant, given that `fit_transform`
produces one matrix row per input document. -/
theorem inv_ingest_pdfs (fitF : List String → List (List ℚ) × (String → List ℚ))
    (hfit : ∀ ds, (fitF ds).1.length = ds.length)
    (st : FullState) (dir : Option (List PdfFile)) (hst : Inv st) :
    Inv (ingest_pdfs fitF st dir).1 := by
  unfold ingest_pdfs
  match dir with
  | none => exact hst
  | some files =>
    by_cases hpdf : files.filter (fun f => pyEndswith f.name ".pdf") = []
    · simp only [hpdf, if_pos rfl]
      exact inv_clear_index st
    · simp only [if_neg hpdf]
      by_cases hchunks :
          (ingest_collect (files.filter (fun f => pyEndswith f.name ".pdf"))).1 = []
      · simp only [if_pos hchunks]
        have hlen := ingest_collect_lengths (files.filter (fun f => pyEndswith f.name ".pdf"))
        rw [hchunks] at hlen
        unfold Inv
        simp only []
        exact (List.length_eq_zero.mp hlen.symm)
      · simp only [if_neg hchunks]
        unfold Inv
        simp only []
        rw [hfit]
        exact ingest_collect_lengths _

/-- An engine with empty metadata never returns search results. -/
theorem retrieve_context_empty_metadata (s : EngineState) (q : String) (k : Nat)
    (h : s.metadata.length = 0) : retrieve_context s q k = [] := by
  obtain ⟨v0, vz, md⟩ := s
  dsimp only at h ⊢
  cases v0 with
  | none => rfl
  | some vs => simp [retrieve_context, h]

/-- Claim C8: after every sequence of `ingest_pdfs` and `clear_index`
operations starting from a fresh engine, the metadata list has one entry per
vector-matrix row (empty metadata pairs with an absent matrix), and when the
chunk count is zero a search returns no results.  `hfit` is the row-count
contract of `TfidfVectorizer.fit_transform`: one row per input document. -/
theorem metadata_vectors_invariant
    (fitF : List String → List (List ℚ) × (String → List ℚ))
    (hfit : ∀ ds, (fitF ds).1.length = ds.length)
    (fresh : String → List ℚ) (ops : List Op) (q : String) (k : Nat) :
    Inv (run fitF ops (initState fresh)) ∧
    ((run fitF ops (initState fresh)).engine.metadata.length = 0 →
      retrieve_context (run fitF ops (initState fresh)).engine q k = []) := by
  constructor
  · suffices hgen : ∀ st : FullState, Inv st → Inv (run fitF ops st) by
      exact hgen (initState fresh) rfl
    induction ops with
    | nil => intro st h; exact h
    | cons op rest ih =>
      intro st h
      refine ih (step fitF st op) ?_
      cases op with
      | ingest dir => exact inv_ingest_pdfs fitF hfit st dir h
      | clear => exact inv_clear_index st
  · intro h
    exact retrieve_context_empty_metadata _ q k h

/-- Claim C8 witness: a concrete ingest-then-clear history under a concrete
row-per-document `fit_transform`. -/
theorem metadata_vectors_invariant_witness :
    Inv (run (fun ds => (ds.map (fun _ => ([1] : List ℚ)), fun _ => ([1] : List ℚ)))
      [Op.ingest (some [⟨"a.pdf", "cats are mammals"⟩]), Op.clear]
      (initState (fun _ => [1]))) ∧
    ((run (fun ds => (ds.map (fun _ => ([1] : List ℚ)), fun _ => ([1] : List ℚ)))
      [Op.ingest (some [⟨"a.pdf", "cats are mammals"⟩]), Op.clear]
      (initState (fun _ => [1]))).engine.metadata.length = 0 →
      retrieve_context (run (fun ds => (ds.map (fun _ => ([1] : List ℚ)),
        fun _ => ([1] : List ℚ)))
        [Op.ingest (some [⟨"a.pdf", "cats are mammals"⟩]), Op.clear]
        (initState (fun _ => [1]))).engine "q" 3 = []) :=
  metadata_vectors_invariant
    (fun ds => (ds.map (fun _ => ([1] : List ℚ)), fun _ => ([1] : List ℚ)))
    (by intro ds; simp) (fun _ => [1])
    [Op.ingest (some [⟨"a.pdf", "cats are mammals"⟩]), Op.clear] "q" 3

/-- Claim C10: calling `ingest_pdfs` on an existing directory with zero
`.pdf` files returns the warning result with count 0 — and, because the hard
reset at line 89 runs before the check at line 93, it also destroys any
previous index: the in-memory metadata and vectors are emptied and both
persisted files are removed. -/
theorem ingest_no_pdfs_destroys_index
    (fitF : List String → List (List ℚ) × (String → List ℚ))
    (st : FullState) (files : List PdfFile)
    (h : files.filter (fun f => pyEndswith f.name ".pdf") = []) :
    ingest_pdfs fitF st (some files) =
      (⟨⟨none, st.engine.vectorizer, []⟩, ⟨none, none⟩⟩,
       ⟨"warning", "No PDF files found", 0⟩) := by
  unfold ingest_pdfs clear_index
  simp [h]

/-- Claim C10 witness: a state holding a previously built (and persisted)
one-chunk index, ingesting a directory that only contains a non-PDF file. -/
theorem ingest_no_pdfs_destroys_index_witness :
    ([⟨"notes.txt", "hello"⟩] : List PdfFile).filter
      (fun f => pyEndswith f.name ".pdf") = [] ∧
    ingest_pdfs (fun ds => (ds.map (fun _ => ([1] : List ℚ)), fun _ => [1]))
      ⟨oneChunkEngine, save_index oneChunkEngine⟩ (some [⟨"notes.txt", "hello"⟩]) =
      (⟨⟨none, oneChunkEngine.vectorizer, []⟩, ⟨none, none⟩⟩,
       ⟨"warning", "No PDF files found", 0⟩) :=
  ⟨by decide, ingest_no_pdfs_destroys_index
    (fun ds => (ds.map (fun _ => ([1] : List ℚ)), fun _ => [1]))
    ⟨oneChunkEngine, save_index oneChunkEngine⟩ [⟨"notes.txt", "hello"⟩] (by decide)⟩

/-! ### Theorem about the stats endpoint -/

/-- Claim C9 (code bug): for every engine state the `/stats` handler fails
with HTTP 500 — `get_stats` reads `rag_engine.collection`, an attribute the
TF-IDF `RAGEngine` never defines (a leftover from an earlier ChromaDB
engine), so the `AttributeError` is caught and turned into
`HTTPException(status_code=500)`.  No `{total_chunks, document_count}` record
is ever returned. -/
theorem get_stats_always_http_500 (s : EngineState) :
    get_stats s = Except.error 500 := rfl

end Voice
